import Mathlib

/-!
Shallow embedding of `src/server.js`: an Express/Mongoose social-network
backend with three collections (users, thoughts, reactions), a Mongoose
pre-save hook hashing modified passwords, friend/reaction attach-detach
endpoints, and a JWT bearer-token middleware.

Ids are modelled as `Nat` (Mongoose ObjectIds are opaque unique ids), the
store as lists of documents, and each route handler as a function from a
server state and its request parameters to the next state plus an outcome.
An outcome is either an HTTP response or `thrown` (the JS handler raised,
e.g. a TypeError from dereferencing a `null` result of `findById`; such an
async rejection never produces the route's normal response).
-/

/-- A stored User document (`userSchema`, server.js lines 18-24). -/
structure UserDoc where
  id : Nat
  username : String
  email : String
  password : String
  thoughts : List Nat
  friends : List Nat
deriving DecidableEq, Repr

/-- A stored Thought document (`thoughtSchema`, server.js lines 36-41). -/
structure ThoughtDoc where
  id : Nat
  thoughtText : String
  createdAt : Nat
  username : String
  reactions : List Nat
deriving DecidableEq, Repr

/-- A stored Reaction document (`reactionSchema`, server.js lines 46-50). -/
structure ReactionDoc where
  id : Nat
  reactionBody : String
  createdAt : Nat
  username : String
deriving DecidableEq, Repr

/-- The document store plus the id generator and the clock: collections
`users`, `thoughts`, `reactions`; `nextId` models ObjectId generation and
`now` models `Date.now` for `createdAt` defaults. -/
structure ServerState where
  users : List UserDoc
  thoughts : List ThoughtDoc
  reactions : List ReactionDoc
  nextId : Nat
  now : Nat
deriving DecidableEq, Repr

/-- JSON response bodies the modelled handlers can produce. -/
inductive RespBody where
  | userB (u : UserDoc)
  | thoughtB (t : ThoughtDoc)
  | reactionB (r : ReactionDoc)
  | jsonNull
  | empty
deriving DecidableEq, Repr

/-- An HTTP response: status code and JSON body. -/
structure HttpResponse where
  status : Nat
  body : RespBody
deriving DecidableEq, Repr

/-- Outcome of one request: a response, or an exception escaping the async
handler (no normal response is produced). -/
inductive Outcome where
  | resp (r : HttpResponse)
  | thrown
deriving DecidableEq, Repr

/-- Modelled from the spec: the external bcrypt hashing primitive
(`bcrypt.hash(plaintext, 10)`, spec section 4.2: one-way digest, treated as
an opaque collaborator). Modelled as prepending the bcrypt modular-crypt
format tag, which makes the digest differ from every plaintext. -/
def bcryptHash (plaintext : String) : String :=
  "$2b$10$" ++ plaintext

/-- `Model.findById(id)`: first document with the given id, else `null`. -/
def findUser (s : ServerState) (id : Nat) : Option UserDoc :=
  s.users.find? (fun u => u.id = id)

/-- `Thought.findById(id)`. -/
def findThought (s : ServerState) (id : Nat) : Option ThoughtDoc :=
  s.thoughts.find? (fun t => t.id = id)

/-- `Reaction.findById(id)`. -/
def findReaction (s : ServerState) (id : Nat) : Option ReactionDoc :=
  s.reactions.find? (fun r => r.id = id)

/-- Writing one document into a collection keyed by `key`: replace the
documents carrying its id if present, insert otherwise (Mongoose `save` /
`findByIdAndUpdate` write step). -/
def upsertBy {α : Type} (key : α → Nat) (l : List α) (a : α) : List α :=
  if l.any (fun v => key v = key a) then
    l.map (fun v => if key v = key a then a else v)
  else l ++ [a]

/-- Persist a User document into the users collection. -/
def putUserDoc (s : ServerState) (u : UserDoc) : ServerState :=
  { s with users := upsertBy UserDoc.id s.users u }

/-- Persist a Thought document into the thoughts collection. -/
def putThoughtDoc (s : ServerState) (t : ThoughtDoc) : ServerState :=
  { s with thoughts := upsertBy ThoughtDoc.id s.thoughts t }

/-- An in-memory Mongoose User document: the fields plus the
`isModified('password')` flag the pre-save hook consults (a document
freshly loaded by `findById` has no modified paths; a newly constructed
document has its set fields modified). -/
structure MUser where
  doc : UserDoc
  passwordModified : Bool
deriving DecidableEq, Repr

/-- The `userSchema.pre('save')` hook (server.js lines 26-31): if the
password path is modified, replace it by its bcrypt hash. -/
def userPreSave (m : MUser) : MUser :=
  if m.passwordModified then
    { m with doc := { m.doc with password := bcryptHash m.doc.password } }
  else m

/-- `user.save()`: run the pre-save hook, then write the document. Returns
the persisted document. -/
def mongooseSaveUser (s : ServerState) (m : MUser) : ServerState × UserDoc :=
  let m1 := userPreSave m
  (putUserDoc s m1.doc, m1.doc)

/-- Request body for `POST /users` (all three fields are `required` in the
schema, so a persisted create has them present). -/
structure CreateUserBody where
  username : String
  email : String
  password : String
deriving DecidableEq, Repr

/-- Request body for `PUT /users/:userId`: a partial field replacement
(`findByIdAndUpdate` `$set`s exactly the fields present in `req.body`). -/
structure UserUpdate where
  username : Option String := none
  email : Option String := none
  password : Option String := none
deriving DecidableEq, Repr

/-- Apply a `findByIdAndUpdate` body to a stored document: set each present
field, keep the rest. No save middleware runs on this path. -/
def applyUserUpdate (u : UserDoc) (b : UserUpdate) : UserDoc :=
  { u with
    username := b.username.getD u.username
    email := b.email.getD u.email
    password := b.password.getD u.password }

/-- `POST /users` (server.js lines 77-80): `User.create(req.body)` builds a
new document (every set path, the password included, counts as modified),
saves it through the pre-save hook, and responds 201 with the created
user. A duplicate email violates the unique index and the insert throws. -/
def postUsers (s : ServerState) (b : CreateUserBody) : ServerState × Outcome :=
  if s.users.any (fun u => u.email = b.email) then (s, .thrown)
  else
    let m : MUser :=
      { doc := { id := s.nextId, username := b.username, email := b.email,
                 password := b.password, thoughts := [], friends := [] },
        passwordModified := true }
    let r := mongooseSaveUser { s with nextId := s.nextId + 1 } m
    (r.1, .resp ⟨201, .userB r.2⟩)

/-- `PUT /users/:userId` (server.js lines 83-85): `User.findByIdAndUpdate`
with `{ new: true }`. On an absent id it resolves to `null` and the handler
answers `res.json(null)` (status 200). The update path bypasses the
document middleware: the pre-save hook does not run. -/
def putUser (s : ServerState) (userId : Nat) (b : UserUpdate) :
    ServerState × Outcome :=
  match findUser s userId with
  | none => (s, .resp ⟨200, .jsonNull⟩)
  | some u =>
      let u1 := applyUserUpdate u b
      (putUserDoc s u1, .resp ⟨200, .userB u1⟩)

/-- `POST /users/:userId/friends/:friendId` (server.js lines 92-97): fetch
the user, `friends.push(friendId)` (appends, duplicates allowed), save
through the hook, respond 201 with the updated user. On an absent user the
`push` on `null` throws. -/
def postUserFriend (s : ServerState) (userId friendId : Nat) :
    ServerState × Outcome :=
  match findUser s userId with
  | none => (s, .thrown)
  | some u =>
      let m : MUser :=
        { doc := { u with friends := u.friends ++ [friendId] },
          passwordModified := false }
      let r := mongooseSaveUser s m
      (r.1, .resp ⟨201, .userB r.2⟩)

/-- `DELETE /users/:userId/friends/:friendId` (server.js lines 99-104):
fetch the user, `friends.pull(friendId)` (removes every occurrence; a no-op
when absent), save, respond 204 empty. On an absent user the `pull` on
`null` throws. -/
def deleteUserFriend (s : ServerState) (userId friendId : Nat) :
    ServerState × Outcome :=
  match findUser s userId with
  | none => (s, .thrown)
  | some u =>
      let m : MUser :=
        { doc := { u with friends := u.friends.filter (fun f => f ≠ friendId) },
          passwordModified := false }
      let r := mongooseSaveUser s m
      (r.1, .resp ⟨204, .empty⟩)

/-- `DELETE /thoughts/:thoughtId` (server.js lines 122-125):
`Thought.findByIdAndDelete` removes the thought document only, then
respond 204 empty. Nothing touches the reactions collection. -/
def deleteThought (s : ServerState) (thoughtId : Nat) : ServerState × Outcome :=
  ({ s with thoughts := s.thoughts.filter (fun t => t.id ≠ thoughtId) },
   .resp ⟨204, .empty⟩)

/-- Request body for `POST /thoughts/:thoughtId/reactions` (`reactionBody`
and `username` are the required schema fields). -/
structure ReactionBody where
  reactionBody : String
  username : String
deriving DecidableEq, Repr

/-- The Reaction document `Reaction.create(req.body)` builds: fresh id,
body fields, `createdAt` defaulted to the current time. -/
def mkReaction (s : ServerState) (b : ReactionBody) : ReactionDoc :=
  { id := s.nextId, reactionBody := b.reactionBody, createdAt := s.now,
    username := b.username }

/-- `Reaction.create(req.body)`: insert the new document, return it. -/
def reactionCreate (s : ServerState) (b : ReactionBody) :
    ServerState × ReactionDoc :=
  let r := mkReaction s b
  ({ s with reactions := s.reactions ++ [r], nextId := s.nextId + 1 }, r)

/-- `POST /thoughts/:thoughtId/reactions` (server.js lines 127-133): fetch
the thought, create the Reaction (this runs even when the thought is
`null`), push the reaction id onto the thought's `reactions`, save, respond
201 with the created reaction. On an absent thought the `push` on `null`
throws, after the Reaction was already inserted. -/
def postThoughtReaction (s : ServerState) (thoughtId : Nat) (b : ReactionBody) :
    ServerState × Outcome :=
  let thoughtQ := findThought s thoughtId
  let cr := reactionCreate s b
  match thoughtQ with
  | none => (cr.1, .thrown)
  | some t =>
      let t1 := { t with reactions := t.reactions ++ [cr.2.id] }
      (putThoughtDoc cr.1 t1, .resp ⟨201, .reactionB cr.2⟩)

/-- `DELETE /thoughts/:thoughtId/reactions/:reactionId` (server.js lines
135-141): fetch the thought, `reactions.pull(reactionId)` (removes every
occurrence; a no-op when absent), save, `Reaction.findByIdAndDelete` the
reaction document, respond 204 empty. On an absent thought the `pull` on
`null` throws. -/
def deleteThoughtReaction (s : ServerState) (thoughtId reactionId : Nat) :
    ServerState × Outcome :=
  match findThought s thoughtId with
  | none => (s, .thrown)
  | some t =>
      let t1 := { t with reactions := t.reactions.filter (fun x => x ≠ reactionId) }
      let s1 := putThoughtDoc s t1
      let s2 := { s1 with reactions := s1.reactions.filter (fun r => r.id ≠ reactionId) }
      (s2, .resp ⟨204, .empty⟩)

/-- Decoded JWT claims (the `user` object `jwt.verify` passes on success);
the payload is opaque to this server, one field suffices. -/
structure JwtClaims where
  sub : String
deriving DecidableEq, Repr

/-- Result of the auth middleware: reject with a status, or attach the
decoded claims to `req.user` and call `next()`. -/
inductive AuthResult where
  | reject (status : Nat)
  | proceed (claims : JwtClaims)
deriving DecidableEq, Repr

/-- Worker for JS `String.prototype.split(' ')`: cut the character list at
every single space, keeping empty pieces. -/
def splitSpaceAux : List Char → List Char → List String
  | [], acc => [String.mk acc.reverse]
  | c :: rest, acc =>
      if c = ' ' then String.mk acc.reverse :: splitSpaceAux rest []
      else splitSpaceAux rest (c :: acc)

/-- JS `s.split(' ')`: e.g. `"Bearer tok"` gives `["Bearer", "tok"]`,
`"Bearer"` gives `["Bearer"]`, `" x"` gives `["", "x"]`. -/
def jsSplitSpace (s : String) : List String :=
  splitSpaceAux s.data []

/-- `const token = authHeader && authHeader.split(' ')[1]` (server.js line
61), followed by the `token == null` test: an absent header short-circuits
to `undefined`; an empty header short-circuits to the empty string, which
is NOT `== null` and so counts as a present token; otherwise the token is
the second space-separated word, absent when there is none. -/
def extractToken (authHeader : Option String) : Option String :=
  match authHeader with
  | none => none
  | some h => if h = "" then some "" else (jsSplitSpace h).get? 1

/-- `authenticateToken` middleware (server.js lines 59-69), parameterised
by the external `jwt.verify` collaborator (the signing secret is folded
into it): no token extracted - 401; verification error - 403; success -
attach the decoded claims and proceed. -/
def authenticateToken (verify : String → Except Unit JwtClaims)
    (authHeader : Option String) : AuthResult :=
  match extractToken authHeader with
  | none => .reject 401
  | some t =>
      match verify t with
      | .error _ => .reject 403
      | .ok user => .proceed user

/-- A response is the not-found client error of the spec's `NotFoundError`
taxonomy exactly when its status is 404. -/
def isNotFoundOutcome : Outcome → Bool
  | .resp r => r.status = 404
  | .thrown => false

/-! ### Concrete fixtures used by counterexamples and witnesses -/

/-- A store holding one user whose password is already stored hashed. -/
def c1User : UserDoc :=
  { id := 1, username := "alice", email := "alice@x.com",
    password := bcryptHash "oldpw", thoughts := [], friends := [] }

/-- A one-user store. -/
def c1State : ServerState :=
  { users := [c1User], thoughts := [], reactions := [], nextId := 2, now := 0 }

/-- The empty store. -/
def emptyState : ServerState :=
  { users := [], thoughts := [], reactions := [], nextId := 1, now := 0 }

/-- A thought carrying one reaction reference, and that reaction. -/
def w4Thought : ThoughtDoc :=
  { id := 1, thoughtText := "hello", createdAt := 0, username := "a",
    reactions := [4] }

/-- The reaction referenced by `w4Thought`. -/
def w4Reaction : ReactionDoc :=
  { id := 4, reactionBody := "r", createdAt := 0, username := "b" }

/-- A reaction request body. -/
def w4Body : ReactionBody := { reactionBody := "x", username := "c" }

/-- A store holding `w4Thought` and `w4Reaction`. -/
def w4State : ServerState :=
  { users := [], thoughts := [w4Thought], reactions := [w4Reaction],
    nextId := 5, now := 1 }

/-- A user who already has user 2 as a friend. -/
def c5User : UserDoc :=
  { id := 1, username := "bob", email := "bob@x.com", password := "pw",
    thoughts := [], friends := [2] }

/-- A store holding `c5User`. -/
def c5State : ServerState :=
  { users := [c5User], thoughts := [], reactions := [], nextId := 3, now := 0 }

/-- A user with no friends. -/
def w5User : UserDoc :=
  { id := 1, username := "carol", email := "carol@x.com", password := "pw",
    thoughts := [], friends := [] }

/-- A store holding `w5User`. -/
def w5State : ServerState :=
  { users := [w5User], thoughts := [], reactions := [], nextId := 2, now := 0 }

/-- A thought with no reactions yet. -/
def c6Thought : ThoughtDoc :=
  { id := 1, thoughtText := "hello", createdAt := 0, username := "alice",
    reactions := [] }

/-- A store holding `c6Thought`. -/
def c6State : ServerState :=
  { users := [], thoughts := [c6Thought], reactions := [], nextId := 2,
    now := 5 }

/-- A reaction request body. -/
def c6Body : ReactionBody := { reactionBody := "hi", username := "bob" }

/-- A user with no friends, for the C6 witness. -/
def w6User : UserDoc :=
  { id := 1, username := "dave", email := "dave@x.com", password := "pw",
    thoughts := [], friends := [] }

/-- A thought with no reactions, for the C6 witness. -/
def w6Thought : ThoughtDoc :=
  { id := 2, thoughtText := "yo", createdAt := 0, username := "dave",
    reactions := [] }

/-- A store holding `w6User` and `w6Thought`. -/
def w6State : ServerState :=
  { users := [w6User], thoughts := [w6Thought], reactions := [],
    nextId := 3, now := 0 }

/-- A concrete stand-in for the external `jwt.verify` collaborator:
accepts exactly the token `"tok"`. -/
def verifyTest : String → Except Unit JwtClaims :=
  fun t => if t = "tok" then .ok { sub := "alice" } else .error ()

/-- A thought referencing reaction 5, next to an unreferenced reaction 7,
for C10: the pulled id is not a member of the thought's sequence. -/
def w10Thought : ThoughtDoc :=
  { id := 1, thoughtText := "hm", createdAt := 0, username := "a",
    reactions := [5] }

/-- A reaction not referenced by any thought. -/
def w10Reaction : ReactionDoc :=
  { id := 7, reactionBody := "orphan", createdAt := 0, username := "b" }

/-- A store holding `w10Thought` and `w10Reaction`. -/
def w10State : ServerState :=
  { users := [], thoughts := [w10Thought], reactions := [w10Reaction],
    nextId := 8, now := 0 }

/-! ### Helper lemmas about the store primitives -/

/-- The bcrypt digest is never the plaintext it hashes: the format tag
makes it strictly longer. -/
theorem bcryptHash_ne (p : String) : bcryptHash p ≠ p := by
  intro h
  have hlen := congrArg String.length h
  rw [bcryptHash, String.length_append] at hlen
  have h7 : "$2b$10$".length = 7 := rfl
  rw [h7] at hlen
  omega

/-- Replacing every document carrying `a`'s key by `a` makes `a` the first
document found under that key, provided some document carried it. -/
theorem find?_map_replace_self {α : Type} (key : α → Nat) (a : α) :
    ∀ l : List α, l.any (fun v => key v = key a) = true →
      (l.map (fun v => if key v = key a then a else v)).find?
        (fun x => key x = key a) = some a := by
  intro l
  induction l with
  | nil => intro h; simp at h
  | cons b t ih =>
      intro h
      by_cases hb : key b = key a
      · simp [List.find?_cons, hb]
      · simp only [List.map_cons, if_neg hb, List.find?_cons, decide_eq_true_eq,
          hb, if_false]
        have ht : t.any (fun v => key v = key a) = true := by
          simp only [List.any_cons, Bool.or_eq_true, decide_eq_true_eq] at h
          rcases h with h | h
          · exact absurd h hb
          · exact h
        simpa [hb] using ih ht

/-- After an upsert, looking a document up by its own key finds exactly the
upserted document. -/
theorem find?_upsertBy_self {α : Type} (key : α → Nat) (l : List α) (a : α) :
    (upsertBy key l a).find? (fun x => key x = key a) = some a := by
  unfold upsertBy
  by_cases h : l.any (fun v => key v = key a) = true
  · rw [if_pos h]
    exact find?_map_replace_self key a l h
  · rw [if_neg h]
    rw [List.find?_append]
    have hl : l.find? (fun x => key x = key a) = none := by
      rw [List.find?_eq_none]
      intro x hx
      have hall := List.any_eq_false.mp (Bool.not_eq_true _ ▸ h)
      simpa using hall x hx
    simp [hl, List.find?]

/-- The upserted document is a member of the written collection. -/
theorem mem_upsertBy_self {α : Type} (key : α → Nat) (l : List α) (a : α) :
    a ∈ upsertBy key l a :=
  List.mem_of_find?_eq_some (find?_upsertBy_self key l a)

/-- After filtering away one key, no document is found under it. -/
theorem find?_filter_key_ne {α : Type} (key : α → Nat) (l : List α) (k : Nat) :
    (l.filter (fun x => key x ≠ k)).find? (fun x => key x = k) = none := by
  rw [List.find?_eq_none]
  intro x hx
  have hx2 := (List.mem_filter.mp hx).2
  simpa using hx2

/-- Filtering away an element that is not there changes nothing (the
Mongoose `pull` of an absent reference). -/
theorem filter_ne_of_not_mem {l : List Nat} {a : Nat} (h : a ∉ l) :
    l.filter (fun x => x ≠ a) = l := by
  apply List.filter_eq_self.mpr
  intro x hx
  simp only [ne_eq, decide_not, Bool.not_eq_eq_eq_not, Bool.not_true,
    decide_eq_false_iff_not]
  exact fun hxa => h (hxa ▸ hx)

/-- A document obtained from `findUser` carries the id it was looked up
under. -/
theorem findUser_id {s : ServerState} {id : Nat} {u : UserDoc}
    (h : findUser s id = some u) : u.id = id := by
  unfold findUser at h
  simpa using List.find?_some h

/-- A document obtained from `findThought` carries the id it was looked up
under. -/
theorem findThought_id {s : ServerState} {id : Nat} {t : ThoughtDoc}
    (h : findThought s id = some t) : t.id = id := by
  unfold findThought at h
  simpa using List.find?_some h

/-- Looking a user up right after persisting it finds it. -/
theorem findUser_putUserDoc (s : ServerState) (u : UserDoc) :
    findUser (putUserDoc s u) u.id = some u :=
  find?_upsertBy_self UserDoc.id s.users u

/-- Looking a thought up right after persisting it finds it. -/
theorem findThought_putThoughtDoc (s : ServerState) (t : ThoughtDoc) :
    findThought (putThoughtDoc s t) t.id = some t :=
  find?_upsertBy_self ThoughtDoc.id s.thoughts t

/-- `findThought_putThoughtDoc`, phrased at the id the thought carries. -/
theorem findThought_putThoughtDoc_at (s : ServerState) (t : ThoughtDoc)
    (id : Nat) (h : t.id = id) :
    findThought (putThoughtDoc s t) id = some t := by
  rw [← h]
  exact findThought_putThoughtDoc s t

/-- Changing the reactions collection leaves thought lookups unchanged. -/
theorem findThought_set_reactions (s : ServerState) (l : List ReactionDoc)
    (id : Nat) : findThought { s with reactions := l } id = findThought s id :=
  rfl

/-- Reaction lookup reads exactly the reactions collection. -/
theorem findReaction_set_reactions (s : ServerState) (l : List ReactionDoc)
    (id : Nat) :
    findReaction { s with reactions := l } id = l.find? (fun r => r.id = id) :=
  rfl

/-- The created Reaction carries the freshly generated id. -/
theorem mkReaction_id (s : ServerState) (b : ReactionBody) :
    (mkReaction s b).id = s.nextId := rfl

/-- Saving a document whose password path is unmodified runs the hook as a
no-op: the document is persisted as it is, nothing is re-hashed. -/
theorem mongooseSaveUser_unmodified (s : ServerState) (d : UserDoc) :
    mongooseSaveUser s { doc := d, passwordModified := false } =
      (putUserDoc s d, d) := rfl

/-- Saving a document whose password path is modified persists it with the
password replaced by its bcrypt hash. -/
theorem mongooseSaveUser_modified (s : ServerState) (d : UserDoc) :
    mongooseSaveUser s { doc := d, passwordModified := true } =
      (putUserDoc s { d with password := bcryptHash d.password },
       { d with password := bcryptHash d.password }) := rfl

/-! ### Claims -/

/-- Claim C1: whenever a persisted write modifies a User's password field,
the stored value is re-hashed before persistence — including update via
PUT /users/:userId. The code violates this: `User.findByIdAndUpdate`
bypasses the `pre('save')` hook, so the failing input below (a PUT whose
body sets the password to `"newpw"` on an existing user) persists the
plaintext `"newpw"`, not its bcrypt hash. -/
theorem C1_put_password_not_rehashed :
    (findUser (putUser c1State 1 { password := some "newpw" }).1 1).map
        UserDoc.password = some "newpw" ∧
    "newpw" ≠ bcryptHash "newpw" := by
  constructor
  · rfl
  · decide

/-- Claim C2: every User persisted via POST /users stores the bcrypt hash
of the submitted password, never the plaintext itself: `User.create` runs
the `pre('save')` hook, and on a fresh document the password path counts
as modified. -/
theorem C2_stored_password_is_hash (s : ServerState) (b : CreateUserBody)
    (hmail : s.users.any (fun u => u.email = b.email) = false) :
    ∃ u : UserDoc,
      (postUsers s b).2 = .resp ⟨201, .userB u⟩ ∧
      u ∈ (postUsers s b).1.users ∧
      u.password = bcryptHash b.password ∧
      u.password ≠ b.password := by
  refine ⟨{ id := s.nextId, username := b.username, email := b.email,
            password := bcryptHash b.password, thoughts := [], friends := [] },
          ?_, ?_, rfl, bcryptHash_ne b.password⟩
  · unfold postUsers
    rw [hmail]
    simp [mongooseSaveUser, userPreSave]
  · unfold postUsers
    rw [hmail]
    simp only [Bool.false_eq_true, if_false, mongooseSaveUser, userPreSave,
      if_pos, putUserDoc]
    exact mem_upsertBy_self UserDoc.id s.users _

/-- Witness for C2 at the empty store and a concrete body. -/
theorem C2_witness :
    ∃ u : UserDoc,
      (postUsers emptyState
          { username := "a", email := "a@x.com", password := "p" }).2 =
        .resp ⟨201, .userB u⟩ ∧
      u ∈ (postUsers emptyState
          { username := "a", email := "a@x.com", password := "p" }).1.users ∧
      u.password = bcryptHash "p" ∧
      u.password ≠ "p" :=
  C2_stored_password_is_hash emptyState
    { username := "a", email := "a@x.com", password := "p" } rfl

/-- Claim C3 counterexample: PUT /users/7 on the empty store does not
answer a not-found error: it answers 200 with the JSON `null` body (and
leaves the store unchanged). -/
theorem C3_counterexample :
    (putUser emptyState 7 { username := some "x" }).2 =
      .resp ⟨200, .jsonNull⟩ ∧
    isNotFoundOutcome (putUser emptyState 7 { username := some "x" }).2 =
      false ∧
    (putUser emptyState 7 { username := some "x" }).1 = emptyState := by
  refine ⟨rfl, rfl, rfl⟩

/-- Claim C3 (amended): for every id absent from the users collection,
PUT /users/:userId responds 200 with a `null` body — not a not-found
error — and neither creates nor modifies any document (the state is
returned unchanged). -/
theorem C3_put_unknown_id_returns_null (s : ServerState) (id : Nat)
    (b : UserUpdate) (h : findUser s id = none) :
    putUser s id b = (s, .resp ⟨200, .jsonNull⟩) := by
  unfold putUser
  rw [h]

/-- Witness for the amended C3 at the empty store. -/
theorem C3_witness :
    putUser emptyState 7 { username := some "x" } =
      (emptyState, .resp ⟨200, .jsonNull⟩) :=
  C3_put_unknown_id_returns_null emptyState 7 { username := some "x" } rfl

/-- Claim C4: for a Thought present in the store, removeReaction both
removes the pulled reference from the Thought's reactions sequence and
hard-deletes the Reaction document; and addReaction immediately followed
by removeReaction on the freshly created reaction id returns the Thought's
reaction sequence to its prior state, after which fetching the deleted
reaction id finds nothing. -/
theorem C4_removeReaction_pulls_and_deletes (s : ServerState) (tid rid : Nat)
    (t : ThoughtDoc) (ht : findThought s tid = some t)
    (hfresh : s.nextId ∉ t.reactions) (b : ReactionBody) :
    (findThought (deleteThoughtReaction s tid rid).1 tid =
        some { t with reactions := t.reactions.filter (fun x => x ≠ rid) } ∧
      findReaction (deleteThoughtReaction s tid rid).1 rid = none ∧
      (deleteThoughtReaction s tid rid).2 = .resp ⟨204, .empty⟩) ∧
    (findThought
        (deleteThoughtReaction (postThoughtReaction s tid b).1 tid
          s.nextId).1 tid = some t ∧
      findReaction
        (deleteThoughtReaction (postThoughtReaction s tid b).1 tid
          s.nextId).1 s.nextId = none) := by
  have htid : t.id = tid := findThought_id ht
  have hfindA : ∀ t1 : ThoughtDoc, t1.id = tid → ∀ s0 : ServerState,
      findThought (putThoughtDoc s0 t1) tid = some t1 := by
    intro t1 h1 s0
    have h2 := findThought_putThoughtDoc s0 t1
    rwa [h1] at h2
  have hstep : (postThoughtReaction s tid b).1 =
      putThoughtDoc (reactionCreate s b).1
        { t with reactions := t.reactions ++ [s.nextId] } := by
    simp only [postThoughtReaction, ht, reactionCreate, mkReaction]
  have hA : findThought (putThoughtDoc (reactionCreate s b).1
      { t with reactions := t.reactions ++ [s.nextId] }) tid =
      some { t with reactions := t.reactions ++ [s.nextId] } :=
    hfindA { t with reactions := t.reactions ++ [s.nextId] } htid
      (reactionCreate s b).1
  have hfilter : (t.reactions ++ [s.nextId]).filter
      (fun x => x ≠ s.nextId) = t.reactions := by
    rw [List.filter_append, filter_ne_of_not_mem hfresh]
    simp
  refine ⟨⟨?_, ?_, ?_⟩, ?_, ?_⟩
  · simp only [deleteThoughtReaction, ht]
    rw [findThought_set_reactions]
    exact hfindA { t with reactions := t.reactions.filter (fun x => x ≠ rid) }
      htid s
  · simp only [deleteThoughtReaction, ht]
    rw [findReaction_set_reactions]
    exact find?_filter_key_ne ReactionDoc.id _ rid
  · simp only [deleteThoughtReaction, ht]
  · rw [hstep]
    simp only [deleteThoughtReaction, hA]
    rw [findThought_set_reactions, hfilter]
    exact hfindA t htid _
  · rw [hstep]
    simp only [deleteThoughtReaction, hA]
    rw [findReaction_set_reactions]
    exact find?_filter_key_ne ReactionDoc.id _ s.nextId

/-- Witness for C4 at a concrete one-thought store. -/
theorem C4_witness :
    (findThought (deleteThoughtReaction w4State 1 4).1 1 =
        some { w4Thought with
                 reactions := w4Thought.reactions.filter (fun x => x ≠ 4) } ∧
      findReaction (deleteThoughtReaction w4State 1 4).1 4 = none ∧
      (deleteThoughtReaction w4State 1 4).2 = .resp ⟨204, .empty⟩) ∧
    (findThought
        (deleteThoughtReaction (postThoughtReaction w4State 1 w4Body).1 1
          5).1 1 = some w4Thought ∧
      findReaction
        (deleteThoughtReaction (postThoughtReaction w4State 1 w4Body).1 1
          5).1 5 = none) :=
  C4_removeReaction_pulls_and_deletes w4State 1 4 w4Thought rfl (by decide)
    w4Body

/-- Claim C5 counterexample: when friendId is already a member, addFriend
then removeFriend does NOT restore the friends set: `push` appends a
duplicate and `pull` removes every occurrence, so a prior sole membership
`[2]` ends as `[]`. -/
theorem C5_counterexample :
    (findUser (deleteUserFriend (postUserFriend c5State 1 2).1 1 2).1 1).map
        UserDoc.friends = some [] ∧
    (findUser c5State 1).map UserDoc.friends = some [2] := by
  refine ⟨rfl, rfl⟩

/-- Claim C5 (amended): addFriend followed by removeFriend with the same
ids restores the user's friends list to exactly its prior state whenever
friendId was NOT already a member; when it was, `pull` removes every
occurrence (the pre-existing ones included), so the round-trip fails. -/
theorem C5_roundtrip_when_not_member (s : ServerState) (uid fid : Nat)
    (u : UserDoc) (hu : findUser s uid = some u) (hf : fid ∉ u.friends) :
    findUser (deleteUserFriend (postUserFriend s uid fid).1 uid fid).1 uid =
      some u := by
  have huid : u.id = uid := findUser_id hu
  have hfindA : ∀ u1 : UserDoc, u1.id = uid → ∀ s0 : ServerState,
      findUser (putUserDoc s0 u1) uid = some u1 := by
    intro u1 h1 s0
    have h2 := findUser_putUserDoc s0 u1
    rwa [h1] at h2
  have hstep : (postUserFriend s uid fid).1 =
      putUserDoc s { u with friends := u.friends ++ [fid] } := by
    simp only [postUserFriend, hu, mongooseSaveUser_unmodified]
  rw [hstep]
  have hA : findUser
      (putUserDoc s { u with friends := u.friends ++ [fid] }) uid =
      some { u with friends := u.friends ++ [fid] } :=
    hfindA { u with friends := u.friends ++ [fid] } huid s
  simp only [deleteUserFriend, hA, mongooseSaveUser_unmodified]
  have hfilter : (u.friends ++ [fid]).filter (fun f => f ≠ fid) = u.friends := by
    rw [List.filter_append, filter_ne_of_not_mem hf]
    simp
  rw [hfilter]
  exact hfindA u huid _

/-- Witness for the amended C5: a non-member friend id round-trips. -/
theorem C5_witness :
    findUser (deleteUserFriend (postUserFriend w5State 1 9).1 1 9).1 1 =
      some w5User :=
  C5_roundtrip_when_not_member w5State 1 9 w5User rfl (by decide)

/-- Claim C6 counterexample: POST /thoughts/1/reactions responds 201 with
the created Reaction document as its body, which is not the updated parent
Thought (the thought after the attach). -/
theorem C6_counterexample :
    (postThoughtReaction c6State 1 c6Body).2 =
      .resp ⟨201, .reactionB (mkReaction c6State c6Body)⟩ ∧
    (postThoughtReaction c6State 1 c6Body).2 ≠
      .resp ⟨201, .thoughtB { c6Thought with reactions := [2] }⟩ := by
  refine ⟨rfl, by decide⟩

/-- Claim C6 (amended): both attach endpoints respond 201; the friend
attach responds with the updated parent User, but the reaction attach
responds with the created Reaction, not with the updated parent
Thought. -/
theorem C6_attach_response_bodies (s : ServerState) (uid fid tid : Nat)
    (u : UserDoc) (t : ThoughtDoc) (b : ReactionBody)
    (hu : findUser s uid = some u) (ht : findThought s tid = some t) :
    (postUserFriend s uid fid).2 =
      .resp ⟨201, .userB { u with friends := u.friends ++ [fid] }⟩ ∧
    (postThoughtReaction s tid b).2 =
      .resp ⟨201, .reactionB (mkReaction s b)⟩ := by
  constructor
  · simp only [postUserFriend, hu, mongooseSaveUser_unmodified]
  · simp only [postThoughtReaction, ht]
    rfl

/-- Witness for the amended C6 at a concrete store holding one user and
one thought. -/
theorem C6_witness :
    (postUserFriend w6State 1 9).2 =
      .resp ⟨201, .userB { w6User with friends := [9] }⟩ ∧
    (postThoughtReaction w6State 2 c6Body).2 =
      .resp ⟨201, .reactionB (mkReaction w6State c6Body)⟩ :=
  C6_attach_response_bodies w6State 1 9 2 w6User w6Thought c6Body rfl rfl

/-- Claim C7: DELETE /thoughts/:thoughtId removes only the thought
document: the reactions collection is untouched (every reaction remains
retrievable exactly as before — no cascade delete), the users collection
is untouched, the deleted thought is the only document removed, and the
response is 204 empty. -/
theorem C7_deleteThought_no_cascade (s : ServerState) (tid rid : Nat) :
    (deleteThought s tid).1.reactions = s.reactions ∧
    findReaction (deleteThought s tid).1 rid = findReaction s rid ∧
    (deleteThought s tid).1.users = s.users ∧
    (deleteThought s tid).1.thoughts =
      s.thoughts.filter (fun t => t.id ≠ tid) ∧
    (deleteThought s tid).2 = .resp ⟨204, .empty⟩ :=
  ⟨rfl, rfl, rfl, rfl, rfl⟩

/-- Claim C8: the auth-gate middleware rejects with 401 when no bearer
token can be extracted from the Authorization header, rejects with 403
when the extracted token fails verification, and on successful
verification attaches the decoded claims and proceeds to the next
handler — for every verification collaborator and every header. -/
theorem C8_auth_gate (verify : String → Except Unit JwtClaims)
    (h : Option String) :
    (extractToken h = none → authenticateToken verify h = .reject 401) ∧
    (∀ tok, extractToken h = some tok → verify tok = .error () →
      authenticateToken verify h = .reject 403) ∧
    (∀ tok c, extractToken h = some tok → verify tok = .ok c →
      authenticateToken verify h = .proceed c) := by
  refine ⟨?_, ?_, ?_⟩
  · intro hnone
    simp only [authenticateToken, hnone]
  · intro tok hsome herr
    simp only [authenticateToken, hsome, herr]
  · intro tok c hsome hok
    simp only [authenticateToken, hsome, hok]

/-- Witness for C8: the three branches at a concrete verifier, exercised
on a missing header, a bad bearer token, and the accepted one. -/
theorem C8_witness :
    authenticateToken verifyTest none = .reject 401 ∧
    authenticateToken verifyTest (some "Bearer bad") = .reject 403 ∧
    authenticateToken verifyTest (some "Bearer tok") =
      .proceed { sub := "alice" } :=
  ⟨(C8_auth_gate verifyTest none).1 rfl,
   (C8_auth_gate verifyTest (some "Bearer bad")).2.1 "bad" (by decide) rfl,
   (C8_auth_gate verifyTest (some "Bearer tok")).2.2 "tok" { sub := "alice" }
     (by decide) rfl⟩

/-- A reaction request body for C9. -/
def c9Body : ReactionBody := { reactionBody := "hi", username := "bob" }

/-- Claim C9 counterexample: POST /thoughts/99/reactions on the empty
store does not fail with a not-found error: the handler throws (the
`push` on the `null` thought), and the Reaction document has nonetheless
been created and persisted before the throw (an orphan). -/
theorem C9_counterexample :
    (postThoughtReaction emptyState 99 c9Body).2 = .thrown ∧
    isNotFoundOutcome (postThoughtReaction emptyState 99 c9Body).2 = false ∧
    findReaction (postThoughtReaction emptyState 99 c9Body).1 1 =
      some (mkReaction emptyState c9Body) := by
  refine ⟨rfl, rfl, rfl⟩

/-- Claim C9 (amended): for an absent thoughtId, addReaction does NOT
fail with a NotFoundError: the Reaction is created and persisted anyway
and the handler then throws (no not-found response is produced); for a
present thoughtId it creates the Reaction, responds 201 with it, and
appends its reference to the end of the Thought's reactions sequence,
preserving the existing order. -/
theorem C9_addReaction_behavior (s : ServerState) (tid : Nat)
    (b : ReactionBody) :
    (findThought s tid = none →
      postThoughtReaction s tid b = ((reactionCreate s b).1, .thrown)) ∧
    (∀ t : ThoughtDoc, findThought s tid = some t →
      (postThoughtReaction s tid b).2 =
        .resp ⟨201, .reactionB (mkReaction s b)⟩ ∧
      findThought (postThoughtReaction s tid b).1 tid =
        some { t with reactions := t.reactions ++ [(mkReaction s b).id] }) := by
  constructor
  · intro hnone
    simp only [postThoughtReaction, hnone]
  · intro t ht
    have htid : t.id = tid := findThought_id ht
    constructor
    · simp only [postThoughtReaction, ht]
      rfl
    · simp only [postThoughtReaction, ht]
      exact findThought_putThoughtDoc_at (reactionCreate s b).1
        { t with reactions := t.reactions ++ [(mkReaction s b).id] } tid htid

/-- Witness for the amended C9: the absent-thought branch at the empty
store, and the present-thought branch at a one-thought store. -/
theorem C9_witness :
    postThoughtReaction emptyState 99 c9Body =
      ((reactionCreate emptyState c9Body).1, .thrown) ∧
    (postThoughtReaction w6State 2 c9Body).2 =
      .resp ⟨201, .reactionB (mkReaction w6State c9Body)⟩ :=
  ⟨(C9_addReaction_behavior emptyState 99 c9Body).1 rfl,
   ((C9_addReaction_behavior w6State 2 c9Body).2 w6Thought rfl).1⟩

/-- Claim C10: when the thought exists, DELETE
/thoughts/:thoughtId/reactions/:reactionId deletes the Reaction document
with the given id from the reactions collection even when that id is not
a member of the thought's reactions sequence: the pull is a no-op (the
thought is unchanged), the reaction document is removed, and the handler
still responds 204. -/
theorem C10_removeReaction_absent_reference (s : ServerState)
    (tid rid : Nat) (t : ThoughtDoc) (ht : findThought s tid = some t)
    (hmem : rid ∉ t.reactions) :
    (deleteThoughtReaction s tid rid).2 = .resp ⟨204, .empty⟩ ∧
    findThought (deleteThoughtReaction s tid rid).1 tid = some t ∧
    (deleteThoughtReaction s tid rid).1.reactions =
      s.reactions.filter (fun r => r.id ≠ rid) ∧
    findReaction (deleteThoughtReaction s tid rid).1 rid = none := by
  have htid : t.id = tid := findThought_id ht
  have hfilter : t.reactions.filter (fun x => x ≠ rid) = t.reactions :=
    filter_ne_of_not_mem hmem
  refine ⟨?_, ?_, ?_, ?_⟩
  · simp only [deleteThoughtReaction, ht]
  · simp only [deleteThoughtReaction, ht]
    rw [findThought_set_reactions, hfilter]
    exact findThought_putThoughtDoc_at s t tid htid
  · simp only [deleteThoughtReaction, ht]
    rfl
  · simp only [deleteThoughtReaction, ht]
    rw [findReaction_set_reactions]
    exact find?_filter_key_ne ReactionDoc.id _ rid

/-- Witness for C10: reaction 7 exists in the store but is not referenced
by thought 1; the delete still removes it and responds 204. -/
theorem C10_witness :
    (deleteThoughtReaction w10State 1 7).2 = .resp ⟨204, .empty⟩ ∧
    findThought (deleteThoughtReaction w10State 1 7).1 1 = some w10Thought ∧
    (deleteThoughtReaction w10State 1 7).1.reactions =
      w10State.reactions.filter (fun r => r.id ≠ 7) ∧
    findReaction (deleteThoughtReaction w10State 1 7).1 7 = none :=
  C10_removeReaction_absent_reference w10State 1 7 w10Thought rfl (by decide)
